import Mathlib

/-!
Verification of `email_broadcaster.py` (class `EmailBroadcaster`).

Strings are modelled as `List Char`.  Mutable instance state
(`self.sent_count`, `self.failed_count`, `self.results`) is modelled as an
explicit `BroadcasterState` value threaded through the operations.  Network
effects are modelled by a `TransportOutcome` parameter: the transport's
reaction to the posted payload.  `time.sleep` pauses are recorded as a list of
events instead of real-time delays, and `datetime.now()` is supplied by an
abstract clock.

The model of `send_bulk_email` assumes `batch_size > 0`: for `batch_size = 0`
the Python source would raise `ZeroDivisionError` at `(idx + 1) % batch_size`,
which is outside the scope of the claims considered here.
-/

/-- Python `\s` for the ASCII range (the unicode white-space extension is
irrelevant to the e-mail claims). -/
def isPySpace (c : Char) : Bool :=
  c == ' ' || c == '\t' || c == '\n' || c == '\r' || c == '\x0b' || c == '\x0c'

/-- Truthiness of an optional Python string: `None` and `""` are falsy. -/
def optTruthy : Option (List Char) → Bool
  | some (_ :: _) => true
  | _ => false

/-- Fuel-indexed model of CPython `str.replace(tok, name)` for a non-empty
`tok`: scan left to right; at each position, if `tok` starts there, emit
`name` and skip past the match, otherwise emit the character.  The fuel is
only a structural-recursion device; `fuel = s.length` always suffices. -/
def pyReplaceF (tok name : List Char) : Nat → List Char → List Char
  | _, [] => []
  | 0, s => s
  | fuel + 1, c :: rest =>
    if tok.isPrefixOf (c :: rest) then
      name ++ pyReplaceF tok name fuel (rest.drop (tok.length - 1))
    else
      c :: pyReplaceF tok name fuel rest

/-- CPython `str.replace(tok, name)` for non-empty `tok`. -/
def pyReplace (tok name s : List Char) : List Char :=
  pyReplaceF tok name s.length s

/-- Fuel-indexed splitting of a string at the left-to-right non-overlapping
occurrences of `tok` (the same scan as `pyReplaceF`); returns the list of
token-free segments between the occurrences. -/
def splitTokF (tok : List Char) : Nat → List Char → List (List Char)
  | _, [] => [[]]
  | 0, s => [s]
  | fuel + 1, c :: rest =>
    if tok.isPrefixOf (c :: rest) then
      [] :: splitTokF tok fuel (rest.drop (tok.length - 1))
    else
      match splitTokF tok fuel rest with
      | [] => [[c]]
      | seg :: segs => (c :: seg) :: segs

/-- Segments of `s` between the scanned occurrences of `tok`. -/
def splitTok (tok s : List Char) : List (List Char) :=
  splitTokF tok s.length s

/-- Join a list of segments with a separator (used to state what
`pyReplace` does: replacing rejoins the segments with the new text). -/
def joinWith (sep : List Char) : List (List Char) → List Char
  | [] => []
  | [s] => s
  | s :: ss => s ++ sep ++ joinWith sep ss

/-- The literal personalization token of the source, `"\x7bnama\x7d"`
(lines 149-153: `body.replace("\x7bnama\x7d", to_name)` etc.). -/
def nameTok : List Char := ['\x7b', 'n', 'a', 'm', 'a', '\x7d']

/-- Single-character token used to split an address at `@`. -/
def atSign : List Char := ['@']

/-- Language of the e-mail pattern `^[^\s@]+@[^\s@]+\.[^\s@]+$` from
line 58: exactly one `@`; a non-empty local part and a domain part, both free
of white space (and of `@`, by the split); and a `.` in the interior of the
domain part, so that at least one non-space non-`@` character stands on each
side of some dot. -/
def emailShape (s : List Char) : Bool :=
  match splitTok atSign s with
  | [lpart, dpart] =>
    (! lpart.isEmpty) && lpart.all (fun c => ! isPySpace c)
      && dpart.all (fun c => ! isPySpace c)
      && ((dpart.drop 1).dropLast.contains '.')
  | _ => false

/-- Model of `df['email'].str.match(r'^[^\s@]+@[^\s@]+\.[^\s@]+$')`
(line 58).  Python's `$` also matches just before a single trailing
newline, hence the second disjunct. -/
def matchesEmailRe (s : List Char) : Bool :=
  emailShape s ||
    (match s.getLast? with
     | some c => (c == '\n') && emailShape s.dropLast
     | none => false)

/-- Status field of a send result (`'success'` / `'failed'`). -/
inductive SendStatus
  | success
  | failed
deriving DecidableEq

/-- One entry of `self.results` (the dicts built in lines 187-222).
`message_id = none` models the key being absent (the failure dicts);
`message_id = some x` models the key being present with value `x`, where `x`
itself is `none` when the provider returned no `messageId`. -/
structure SendResult where
  status : SendStatus
  email : List Char
  name : List Char
  message : List Char
  message_id : Option (Option (List Char))
  timestamp : Nat
deriving DecidableEq

/-- The fields of the parsed JSON response that lines 185-201 read:
`result.get('success')` (truthiness, modelled as a `Bool`),
`result.get('data', \x7b\x7d).get('messageId')` and
`result.get('error', \x7b\x7d).get('message')`. -/
structure ApiResponse where
  success : Bool
  messageId : Option (List Char)
  errorMessage : Option (List Char)
deriving DecidableEq

/-- Behaviour of the transport for one `requests.post` call (lines 176-183):
a response with an HTTP status code and parsed JSON body; or a raised
`requests.exceptions.RequestException` (connection errors and timeouts); or
any other raised `Exception` (e.g. a JSON decoding error). -/
inductive TransportOutcome
  | response (status_code : Nat) (body : ApiResponse)
  | requestExn (msg : List Char)
  | otherExn (msg : List Char)
deriving DecidableEq

/-- The JSON payload built in lines 157-173.  An `Option` field with value
`none` models the key being absent from the dict; `to_addr` models the `to`
key (`to` is reserved in Lean). -/
structure Payload where
  endpoint : List Char
  api_key : List Char
  to_addr : List Char
  subject : List Char
  body : List Char
  from_name : List Char
  html_body : Option (List Char)
  cc : Option (List Char)
  bcc : Option (List Char)
deriving DecidableEq

/-- The mutable session state of an `EmailBroadcaster` instance
(lines 30-32). -/
@[ext]
structure BroadcasterState where
  sent_count : Nat
  failed_count : Nat
  results : List SendResult
deriving DecidableEq

/-- State set up by `__init__` (lines 30-32). -/
def initState : BroadcasterState := ⟨0, 0, []⟩

/-- A row of the recipients dataframe as consumed by `send_bulk_email`:
`label` is the pandas index label yielded by `iterrows()` (line 255), which
is *not* reset by the loader's row filtering. -/
structure Recipient where
  label : Nat
  nama : List Char
  email : List Char
deriving DecidableEq

/-- A raw row as read by `pd.read_csv`: the e-mail cell may be missing
(`NaN`), modelled by `none`. -/
structure CsvRow where
  label : Nat
  nama : List Char
  email : Option (List Char)
deriving DecidableEq

/-- A raw dataframe: its column names and its rows. -/
structure CsvFrame where
  columns : List String
  rows : List CsvRow
deriving DecidableEq

/-- Behaviour of `pd.read_csv(file_path)` (line 45): the file is missing, or
a frame is produced. -/
inductive ReadCsvOutcome
  | fileNotFound
  | frame (f : CsvFrame)
deriving DecidableEq

/-- Python exceptions that the modelled operations raise or re-raise. -/
inductive PyExn
  | fileNotFound (msg : List Char)
  | zeroDivision
  | generic (msg : List Char)
deriving DecidableEq

/-- The figures printed by `_print_summary` (lines 292-295). -/
structure Summary where
  total : Nat
  sent : Nat
  failed : Nat
  success_rate : ℚ
deriving DecidableEq

def msgSentOk : List Char := "Email sent successfully".data

def msgUnknownError : List Char := "Unknown error".data

def msgRequestErrorPrefix : List Char := "Request error: ".data

def msgUnexpectedErrorPrefix : List Char := "Unexpected error: ".data

def msgFileNotFoundPrefix : List Char := "File tidak ditemukan: ".data

def msgCsvErrorPrefix : List Char := "Error membaca file CSV: ".data

def msgMissingColumnsPrefix : List Char := "Kolom yang hilang: ".data

def endpointSendEmail : List Char := "send-email".data

def commaSep : String := ", "

def colNama : String := "nama"

def colEmail : String := "email"

/-- `required_columns = ['nama', 'email']` (line 48). -/
def required_columns : List String := [colNama, colEmail]

/-- Lines 152-155: `personalized_html_body` is the token-replaced HTML body
when `html_body` is truthy, and `None` otherwise. -/
def personalize_html (to_name : List Char) : Option (List Char) → Option (List Char)
  | some h => if h.isEmpty then none else some (pyReplace nameTok to_name h)
  | none => none

/-- Lines 157-173: build the request payload.  `p_subject`, `p_body` and
`p_html` are the already-personalized fields; `html_body`, `cc` and `bcc`
keys are added only when the corresponding value is truthy. -/
def build_payload (api_key to_email p_subject p_body from_name : List Char)
    (p_html cc bcc : Option (List Char)) : Payload :=
  ⟨endpointSendEmail, api_key, to_email, p_subject, p_body, from_name,
    if optTruthy p_html then p_html else none,
    if optTruthy cc then cc else none,
    if optTruthy bcc then bcc else none⟩

/-- `EmailBroadcaster.send_single_email` (lines 123-222).  `api_key` is the
instance field `self.api_key`; `outcome` is the transport's reaction to the
posted payload; `now` models `datetime.now().isoformat()`.  Every branch
returns an updated state and a result dict - no exception escapes, because
the `try` is closed by `except requests.exceptions.RequestException` and a
catch-all `except Exception`. -/
def send_single_email (st : BroadcasterState)
    (api_key to_email to_name subject body : List Char)
    (html_body : Option (List Char)) (from_name : List Char)
    (cc bcc : Option (List Char))
    (outcome : Payload → TransportOutcome) (now : Nat) :
    BroadcasterState × SendResult :=
  let personalized_body := pyReplace nameTok to_name body
  let personalized_subject := pyReplace nameTok to_name subject
  let personalized_html_body := personalize_html to_name html_body
  let payload := build_payload api_key to_email personalized_subject
    personalized_body from_name personalized_html_body cc bcc
  match outcome payload with
  | .response status_code result =>
    if status_code = 200 ∧ result.success = true then
      (⟨st.sent_count + 1, st.failed_count, st.results⟩,
        ⟨.success, to_email, to_name, msgSentOk, some result.messageId, now⟩)
    else
      (⟨st.sent_count, st.failed_count + 1, st.results⟩,
        ⟨.failed, to_email, to_name, result.errorMessage.getD msgUnknownError,
          none, now⟩)
  | .requestExn m =>
    (⟨st.sent_count, st.failed_count + 1, st.results⟩,
      ⟨.failed, to_email, to_name, msgRequestErrorPrefix ++ m, none, now⟩)
  | .otherExn m =>
    (⟨st.sent_count, st.failed_count + 1, st.results⟩,
      ⟨.failed, to_email, to_name, msgUnexpectedErrorPrefix ++ m, none, now⟩)

/-- The per-broadcast configuration of the loop in `send_bulk_email`:
instance key, template fields, pacing parameters, the total row count
(`total_recipients`, line 247), the transport behaviour for the i-th call
and the clock for the i-th call. -/
structure BulkConfig where
  api_key : List Char
  subject : List Char
  body : List Char
  html_body : Option (List Char)
  from_name : List Char
  delay_seconds : ℚ
  batch_size : Nat
  total : Nat
  outcomes : Nat → Payload → TransportOutcome
  clock : Nat → Nat

/-- The `for idx, row in recipients_df.iterrows()` loop of lines 255-280.
`pos` is the 0-based position of the current row in the iteration (used only
to index the transport and clock and to time-stamp pause events); the pause
condition uses the row's index *label* exactly as the source does:
`(idx + 1) % batch_size == 0 and (idx + 1) < total_recipients` (line 278).
Returns the final state and the list of pause events, each recording the
1-based position after which `time.sleep(delay_seconds)` ran, together with
the slept duration. -/
def bulk_loop (cfg : BulkConfig) : Nat → BroadcasterState → List Recipient →
    BroadcasterState × List (Nat × ℚ)
  | _, st, [] => (st, [])
  | pos, st, r :: rest =>
    let step := send_single_email st cfg.api_key r.email r.nama cfg.subject
      cfg.body cfg.html_body cfg.from_name none none (cfg.outcomes pos)
      (cfg.clock pos)
    let st2 : BroadcasterState :=
      ⟨step.1.sent_count, step.1.failed_count, step.1.results ++ [step.2]⟩
    let next := bulk_loop cfg (pos + 1) st2 rest
    (next.1,
      if (r.label + 1) % cfg.batch_size = 0 ∧ r.label + 1 < cfg.total then
        (pos + 1, cfg.delay_seconds) :: next.2
      else
        next.2)

/-- `EmailBroadcaster._print_summary` (lines 287-296): the success rate is
`self.sent_count / len(self.results) * 100`, computed with no guard, so an
empty results list raises `ZeroDivisionError`. -/
def print_summary (st : BroadcasterState) : Except PyExn Summary :=
  if st.results.length = 0 then
    .error .zeroDivision
  else
    .ok ⟨st.results.length, st.sent_count, st.failed_count,
      (st.sent_count : ℚ) / (st.results.length : ℚ) * 100⟩

/-- `EmailBroadcaster.send_bulk_email` (lines 224-285): reset `self.results`
(line 252, the counters are *not* reset), run the loop, then call
`_print_summary` and return `self.results`.  The returned pair is the final
instance state (whose `results` field is the returned list) and the pause
events; a `ZeroDivisionError` from the summary propagates as `.error`. -/
def send_bulk_email (st : BroadcasterState) (recipients : List Recipient)
    (api_key subject body : List Char) (html_body : Option (List Char))
    (from_name : List Char) (delay_seconds : ℚ) (batch_size : Nat)
    (outcomes : Nat → Payload → TransportOutcome) (clock : Nat → Nat) :
    Except PyExn (BroadcasterState × List (Nat × ℚ)) :=
  let st0 : BroadcasterState := ⟨st.sent_count, st.failed_count, []⟩
  let cfg : BulkConfig := ⟨api_key, subject, body, html_body, from_name,
    delay_seconds, batch_size, recipients.length, outcomes, clock⟩
  let run := bulk_loop cfg 0 st0 recipients
  match print_summary run.1 with
  | .error e => .error e
  | .ok _ => .ok (run.1, run.2)

/-- `EmailBroadcaster.load_recipients_from_csv` (lines 34-76).  A missing
file re-raises `FileNotFoundError` (line 74).  A missing required column
raises `ValueError("Kolom yang hilang: ...")` (line 52), which the
catch-all handler of line 75 re-raises wrapped as
`Exception("Error membaca file CSV: ...")`.  Otherwise rows whose e-mail
cell is `NaN` are dropped (line 55) and rows failing the e-mail pattern are
dropped (lines 58-66); index labels are kept as pandas keeps them. -/
def load_recipients_from_csv (file_path : List Char) (read : ReadCsvOutcome) :
    Except PyExn (List Recipient) :=
  match read with
  | .fileNotFound => .error (.fileNotFound (msgFileNotFoundPrefix ++ file_path))
  | .frame f =>
    let missing := required_columns.filter (fun c => ! f.columns.contains c)
    if missing.isEmpty then
      let nonNull := f.rows.filterMap
        (fun row => row.email.map (fun e => Recipient.mk row.label row.nama e))
      .ok (nonNull.filter (fun r => matchesEmailRe r.email))
    else
      .error (.generic (msgCsvErrorPrefix ++ msgMissingColumnsPrefix
        ++ (String.intercalate commaSep missing).data))

/-- Modelled from the spec: the error taxonomy of spec section 7 -
`FileAccess` (missing or unreadable input file), `Validation` (missing
required columns or dropped rows) and other kinds.  Used to state which
kind each loader failure belongs to. -/
inductive LoadErrorKind
  | fileAccess
  | validation
  | other
deriving DecidableEq

/-- Modelled from the spec: classify a raised loader exception into the
spec's taxonomy.  A `FileNotFoundError` is a `FileAccess` failure; a wrapped
`"Kolom yang hilang"` message is a `Validation` failure. -/
def kindOf : PyExn → LoadErrorKind
  | .fileNotFound _ => .fileAccess
  | .generic m =>
    if (msgCsvErrorPrefix ++ msgMissingColumnsPrefix).isPrefixOf m then
      .validation
    else
      .other
  | .zeroDivision => .other

/-- Modelled from the spec (claim C4): the pause schedule the spec asserts -
a pause after the `k`-th recipient by 1-based position exactly when `k` is a
multiple of `batch_size` and more recipients remain. -/
def specPausePositions (n batch_size : Nat) : List Nat :=
  ((List.range n).map (fun p => p + 1)).filter
    (fun k => k % batch_size = 0 ∧ k < n)

/-- The pause schedule the code actually follows, phrased as a standalone
recursion: a pause after the row at 1-based position `pos + 1` exactly when
its index label `l` satisfies `(l + 1) % batch_size = 0` and
`l + 1 < total`. -/
def labelPausePositions (total batch_size : Nat) : Nat → List Recipient → List Nat
  | _, [] => []
  | pos, r :: rest =>
    if (r.label + 1) % batch_size = 0 ∧ r.label + 1 < total then
      (pos + 1) :: labelPausePositions total batch_size (pos + 1) rest
    else
      labelPausePositions total batch_size (pos + 1) rest

/-- The result dict the i-th iteration of the loop appends, as a function of
the recipient and its position only (the dict does not depend on the
incoming counters). -/
def expectedResult (cfg : BulkConfig) (pos : Nat) (r : Recipient) : SendResult :=
  (send_single_email initState cfg.api_key r.email r.nama cfg.subject cfg.body
    cfg.html_body cfg.from_name none none (cfg.outcomes pos) (cfg.clock pos)).2

/-- The full results list appended by the loop from position `pos` on. -/
def expectedResults (cfg : BulkConfig) : Nat → List Recipient → List SendResult
  | _, [] => []
  | pos, r :: rest =>
    expectedResult cfg pos r :: expectedResults cfg (pos + 1) rest

/-- Number of successful sends among the loop iterations from `pos` on. -/
def countSucc (cfg : BulkConfig) : Nat → List Recipient → Nat
  | _, [] => 0
  | pos, r :: rest =>
    (if (expectedResult cfg pos r).status = .success then 1 else 0)
      + countSucc cfg (pos + 1) rest

/-- Number of failed sends among the loop iterations from `pos` on. -/
def countFail (cfg : BulkConfig) : Nat → List Recipient → Nat
  | _, [] => 0
  | pos, r :: rest =>
    (if (expectedResult cfg pos r).status = .failed then 1 else 0)
      + countFail cfg (pos + 1) rest

/-- Pause positions of a finished bulk call (empty on an aborted call). -/
def bulkPauses (e : Except PyExn (BroadcasterState × List (Nat × ℚ))) : List Nat :=
  match e with
  | .ok run => run.2.map Prod.fst
  | .error _ => []

/-- Final `sent_count` of a finished bulk call (0 on an aborted call). -/
def bulkSent (e : Except PyExn (BroadcasterState × List (Nat × ℚ))) : Nat :=
  match e with
  | .ok run => run.1.sent_count
  | .error _ => 0

/-- Final state of a finished bulk call (`initState` on an aborted call). -/
def bulkState (e : Except PyExn (BroadcasterState × List (Nat × ℚ))) : BroadcasterState :=
  match e with
  | .ok run => run.1
  | .error _ => initState

/-- A dataframe with the default `RangeIndex`, `n` rows, constant name and
address cells. -/
def defaultRecipients (n : Nat) (nama email : List Char) : List Recipient :=
  (List.range n).map (fun i => Recipient.mk i nama email)

/-- Concrete recipient name used by witnesses. -/
def wName : List Char := "Alice".data

/-- Concrete well-formed address used by witnesses. -/
def wEmailOk : List Char := "alice@mail.com".data

/-- Concrete malformed address from the spec's example. -/
def wEmailBad : List Char := "not-an-email".data

/-- Concrete template containing the personalization token. -/
def wTpl : List Char := "Hi ".data ++ nameTok ++ ['!']

/-- Transport that accepts every call with a message id. -/
def okOutcome : Nat → Payload → TransportOutcome :=
  fun _ _ => .response 200 ⟨true, some "mid1".data, none⟩

/-- Clock that always reads 0. -/
def zeroClock : Nat → Nat := fun _ => 0

/-- A three-row frame whose index labels are 0, 2 and 3 - the index shape
the loader leaves behind after dropping the malformed row with label 1
(no `reset_index` is ever called). -/
def gappedRows : List Recipient :=
  [⟨0, wName, wEmailOk⟩, ⟨2, wName, wEmailOk⟩, ⟨3, wName, wEmailOk⟩]

/-- One-recipient frame used by witnesses. -/
def oneRow : List Recipient := [⟨0, wName, wEmailOk⟩]

/-- Concrete provider error message used by witnesses. -/
def wErrMsg : List Char := "Quota exceeded".data

/-- Rendering of `wTpl` for the recipient name `wName`. -/
def wRendered : List Char := "Hi Alice!".data

/-- First segment of `wTpl` around the token. -/
def wSeg : List Char := "Hi ".data

/-- Raw frame with both required columns and three rows: a valid address, a
malformed address, and a missing (`NaN`) address. -/
def wFrame : CsvFrame :=
  ⟨[colNama, colEmail],
   [⟨0, wName, some wEmailOk⟩, ⟨1, wName, some wEmailBad⟩, ⟨2, wName, none⟩]⟩

/-- What the loader keeps of `wFrame`. -/
def wLoaded : List Recipient := [⟨0, wName, wEmailOk⟩]

/-- Raw frame missing the required `email` column. -/
def wBadFrame : CsvFrame := ⟨[colNama], []⟩

theorem isPrefixOfIff {l1 l2 : List Char} : l1.isPrefixOf l2 = true ↔ l1 <+: l2 :=
  List.isPrefixOf_iff_prefix

theorem joinWith_cons_ne (sep x : List Char) (xs : List (List Char)) (h : xs ≠ []) :
    joinWith sep (x :: xs) = x ++ sep ++ joinWith sep xs := by
  cases xs with
  | nil => exact absurd rfl h
  | cons y ys => rfl

theorem splitTokF_ne_nil (tok : List Char) : ∀ fuel s, splitTokF tok fuel s ≠ [] := by
  intro fuel s
  match fuel, s with
  | _, [] => simp [splitTokF]
  | 0, c :: rest => simp [splitTokF]
  | fuel + 1, c :: rest =>
    simp only [splitTokF]
    split
    · simp
    · split <;> simp

theorem pyReplaceF_joinWith (tok name : List Char) :
    ∀ fuel s, pyReplaceF tok name fuel s = joinWith name (splitTokF tok fuel s) := by
  intro fuel
  induction fuel with
  | zero =>
    intro s
    cases s <;> simp [pyReplaceF, splitTokF, joinWith]
  | succ n ih =>
    intro s
    cases s with
    | nil => simp [pyReplaceF, splitTokF, joinWith]
    | cons c rest =>
      simp only [pyReplaceF, splitTokF]
      by_cases h : tok.isPrefixOf (c :: rest) = true
      · simp only [h, if_true]
        rcases hsp : splitTokF tok n (rest.drop (tok.length - 1)) with _ | ⟨seg, segs⟩
        · exact absurd hsp (splitTokF_ne_nil tok n _)
        · simp [joinWith, ih, hsp]
      · simp only [h, if_false]
        rcases hsp : splitTokF tok n rest with _ | ⟨seg, segs⟩
        · exact absurd hsp (splitTokF_ne_nil tok n rest)
        · cases segs with
          | nil => simp [joinWith, ih, hsp]
          | cons s' ss => simp [joinWith, ih, hsp]

theorem joinWith_splitTokF (tok : List Char) (htok : tok ≠ []) :
    ∀ fuel s, joinWith tok (splitTokF tok fuel s) = s := by
  intro fuel
  induction fuel with
  | zero =>
    intro s
    cases s <;> simp [splitTokF, joinWith]
  | succ n ih =>
    intro s
    cases s with
    | nil => simp [splitTokF, joinWith]
    | cons c rest =>
      simp only [splitTokF]
      by_cases h : tok.isPrefixOf (c :: rest) = true
      · simp only [h, if_true]
        obtain ⟨t, ht⟩ := isPrefixOfIff.mp h
        rw [joinWith_cons_ne tok [] _ (splitTokF_ne_nil tok n _), ih, List.nil_append]
        cases tok with
        | nil => exact absurd rfl htok
        | cons d tok' =>
          rw [List.cons_append] at ht
          injection ht with hdc hrest
          subst hdc
          rw [← hrest]
          simp only [List.length_cons, Nat.add_sub_cancel]
          rw [List.drop_left]
          rfl
      · simp only [h, if_false]
        rcases hsp : splitTokF tok n rest with _ | ⟨seg, segs⟩
        · exact absurd hsp (splitTokF_ne_nil tok n rest)
        · cases segs with
          | nil =>
            have := ih rest
            rw [hsp] at this
            simp only [joinWith] at this
            simp [joinWith, this]
          | cons s' ss =>
            have := ih rest
            rw [hsp] at this
            simp only [joinWith] at this ⊢
            simp [this]

theorem splitTokF_no_token (tok : List Char) (htok : tok ≠ []) :
    ∀ fuel s, s.length ≤ fuel → ∀ seg ∈ splitTokF tok fuel s, ¬ tok <:+: seg := by
  intro fuel
  induction fuel with
  | zero =>
    intro s hs seg hseg
    cases s with
    | nil =>
      simp only [splitTokF, List.mem_singleton] at hseg
      subst hseg
      rw [List.infix_nil]
      exact htok
    | cons c rest => simp at hs
  | succ n ih =>
    intro s hs seg hseg
    cases s with
    | nil =>
      simp only [splitTokF, List.mem_singleton] at hseg
      subst hseg
      rw [List.infix_nil]
      exact htok
    | cons c rest =>
      simp only [splitTokF] at hseg
      by_cases h : tok.isPrefixOf (c :: rest) = true
      · rw [if_pos h] at hseg
        rcases List.mem_cons.mp hseg with hseg | hseg
        · subst hseg
          rw [List.infix_nil]
          exact htok
        · refine ih (rest.drop (tok.length - 1)) ?_ seg hseg
          simp only [List.length_drop]
          simp only [List.length_cons] at hs
          omega
      · rw [if_neg h] at hseg
        rcases hsp : splitTokF tok n rest with _ | ⟨seg0, segs⟩
        · exact absurd hsp (splitTokF_ne_nil tok n rest)
        · rw [hsp] at hseg
          simp only [List.length_cons] at hs
          rcases List.mem_cons.mp hseg with hseg | hseg
          · subst hseg
            intro hinf
            rcases List.infix_cons_iff.mp hinf with hpre | hinf0
            · have hseg0 : seg0 <+: rest := by
                have hrec := joinWith_splitTokF tok htok n rest
                rw [hsp] at hrec
                cases segs with
                | nil =>
                  simp only [joinWith] at hrec
                  exact hrec ▸ List.prefix_rfl
                | cons s' ss =>
                  simp only [joinWith] at hrec
                  rw [← hrec, List.append_assoc]
                  exact List.prefix_append seg0 _
              have hcc : c :: seg0 <+: c :: rest :=
                List.cons_prefix_cons.mpr ⟨rfl, hseg0⟩
              exact h (isPrefixOfIff.mpr (hpre.trans hcc))
            · exact ih rest (by omega) seg0
                (by rw [hsp]; exact List.mem_cons_self seg0 segs) hinf0
          · exact ih rest (by omega) seg
              (by rw [hsp]; exact List.mem_cons_of_mem seg0 hseg)

theorem pyReplace_joinWith (tok name s : List Char) :
    pyReplace tok name s = joinWith name (splitTok tok s) :=
  pyReplaceF_joinWith tok name s.length s

theorem joinWith_splitTok (tok : List Char) (htok : tok ≠ []) (s : List Char) :
    joinWith tok (splitTok tok s) = s :=
  joinWith_splitTokF tok htok s.length s

theorem splitTok_no_token (tok : List Char) (htok : tok ≠ []) (s : List Char) :
    ∀ seg ∈ splitTok tok s, ¬ tok <:+: seg :=
  splitTokF_no_token tok htok s.length s (Nat.le_refl s.length)

theorem send_single_email_state (st : BroadcasterState)
    (k e n s b : List Char) (h : Option (List Char)) (fn : List Char)
    (cc bc : Option (List Char)) (o : Payload → TransportOutcome) (t : Nat) :
    send_single_email st k e n s b h fn cc bc o t =
      (⟨st.sent_count +
          (if (send_single_email initState k e n s b h fn cc bc o t).2.status
              = .success then 1 else 0),
        st.failed_count +
          (if (send_single_email initState k e n s b h fn cc bc o t).2.status
              = .failed then 1 else 0),
        st.results⟩,
       (send_single_email initState k e n s b h fn cc bc o t).2) := by
  rcases ho : o (build_payload k e (pyReplace nameTok n s) (pyReplace nameTok n b)
      fn (personalize_html n h) cc bc) with ⟨code, resp⟩ | m | m <;>
    simp only [send_single_email, ho]
  · by_cases hc : code = 200 ∧ resp.success = true
    · simp [hc]
    · simp [hc]
  · simp
  · simp

theorem single_results (st : BroadcasterState)
    (k e n s b : List Char) (h : Option (List Char)) (fn : List Char)
    (cc bc : Option (List Char)) (o : Payload → TransportOutcome) (t : Nat) :
    (send_single_email st k e n s b h fn cc bc o t).1.results = st.results := by
  rw [send_single_email_state]

theorem single_snd (st : BroadcasterState)
    (k e n s b : List Char) (h : Option (List Char)) (fn : List Char)
    (cc bc : Option (List Char)) (o : Payload → TransportOutcome) (t : Nat) :
    (send_single_email st k e n s b h fn cc bc o t).2
      = (send_single_email initState k e n s b h fn cc bc o t).2 := by
  rw [send_single_email_state]

theorem single_sent (st : BroadcasterState)
    (k e n s b : List Char) (h : Option (List Char)) (fn : List Char)
    (cc bc : Option (List Char)) (o : Payload → TransportOutcome) (t : Nat) :
    (send_single_email st k e n s b h fn cc bc o t).1.sent_count
      = st.sent_count +
          (if (send_single_email initState k e n s b h fn cc bc o t).2.status
              = .success then 1 else 0) := by
  rw [send_single_email_state]

theorem single_failed (st : BroadcasterState)
    (k e n s b : List Char) (h : Option (List Char)) (fn : List Char)
    (cc bc : Option (List Char)) (o : Payload → TransportOutcome) (t : Nat) :
    (send_single_email st k e n s b h fn cc bc o t).1.failed_count
      = st.failed_count +
          (if (send_single_email initState k e n s b h fn cc bc o t).2.status
              = .failed then 1 else 0) := by
  rw [send_single_email_state]

theorem single_fields (st : BroadcasterState)
    (k e n s b : List Char) (h : Option (List Char)) (fn : List Char)
    (cc bc : Option (List Char)) (o : Payload → TransportOutcome) (t : Nat) :
    (send_single_email st k e n s b h fn cc bc o t).2.email = e
      ∧ (send_single_email st k e n s b h fn cc bc o t).2.name = n
      ∧ ((send_single_email st k e n s b h fn cc bc o t).2.status = .success
          ∨ (send_single_email st k e n s b h fn cc bc o t).2.status = .failed) := by
  rcases ho : o (build_payload k e (pyReplace nameTok n s) (pyReplace nameTok n b)
      fn (personalize_html n h) cc bc) with ⟨code, resp⟩ | m | m <;>
    simp only [send_single_email, ho]
  · by_cases hc : code = 200 ∧ resp.success = true
    · simp [hc]
    · simp [hc]
  · simp
  · simp

theorem bulk_loop_results (cfg : BulkConfig) :
    ∀ (rows : List Recipient) (pos : Nat) (st : BroadcasterState),
      ((bulk_loop cfg pos st rows).1).results
        = st.results ++ expectedResults cfg pos rows := by
  intro rows
  induction rows with
  | nil => intro pos st; simp [bulk_loop, expectedResults]
  | cons r rest ih =>
    intro pos st
    simp only [bulk_loop, expectedResults]
    rw [ih, single_results, single_snd]
    simp [expectedResult, List.append_assoc]

theorem bulk_loop_sent (cfg : BulkConfig) :
    ∀ (rows : List Recipient) (pos : Nat) (st : BroadcasterState),
      ((bulk_loop cfg pos st rows).1).sent_count
        = st.sent_count + countSucc cfg pos rows := by
  intro rows
  induction rows with
  | nil => intro pos st; simp [bulk_loop, countSucc]
  | cons r rest ih =>
    intro pos st
    simp only [bulk_loop, countSucc]
    rw [ih, single_sent]
    simp only [expectedResult]
    omega

theorem bulk_loop_failed (cfg : BulkConfig) :
    ∀ (rows : List Recipient) (pos : Nat) (st : BroadcasterState),
      ((bulk_loop cfg pos st rows).1).failed_count
        = st.failed_count + countFail cfg pos rows := by
  intro rows
  induction rows with
  | nil => intro pos st; simp [bulk_loop, countFail]
  | cons r rest ih =>
    intro pos st
    simp only [bulk_loop, countFail]
    rw [ih, single_failed]
    simp only [expectedResult]
    omega

theorem bulk_loop_pauses (cfg : BulkConfig) :
    ∀ (rows : List Recipient) (pos : Nat) (st : BroadcasterState),
      (bulk_loop cfg pos st rows).2
        = (labelPausePositions cfg.total cfg.batch_size pos rows).map
            (fun p => (p, cfg.delay_seconds)) := by
  intro rows
  induction rows with
  | nil => intro pos st; simp [bulk_loop, labelPausePositions]
  | cons r rest ih =>
    intro pos st
    simp only [bulk_loop, labelPausePositions]
    split
    · simp [ih]
    · simp [ih]

theorem expectedResults_length (cfg : BulkConfig) :
    ∀ (rows : List Recipient) (pos : Nat),
      (expectedResults cfg pos rows).length = rows.length := by
  intro rows
  induction rows with
  | nil => intro pos; simp [expectedResults]
  | cons r rest ih => intro pos; simp [expectedResults, ih]

theorem expectedResults_map_pair (cfg : BulkConfig) :
    ∀ (rows : List Recipient) (pos : Nat),
      (expectedResults cfg pos rows).map (fun x => (x.email, x.name))
        = rows.map (fun r => (r.email, r.nama)) := by
  intro rows
  induction rows with
  | nil => intro pos; simp [expectedResults]
  | cons r rest ih =>
    intro pos
    simp only [expectedResults, List.map_cons, ih]
    have hf := single_fields initState cfg.api_key r.email r.nama cfg.subject
      cfg.body cfg.html_body cfg.from_name none none (cfg.outcomes pos) (cfg.clock pos)
    simp [expectedResult, hf.1, hf.2.1]

theorem send_bulk_email_nil (st : BroadcasterState)
    (k s b : List Char) (h : Option (List Char)) (fn : List Char)
    (d : ℚ) (bs : Nat) (oc : Nat → Payload → TransportOutcome) (ck : Nat → Nat) :
    send_bulk_email st [] k s b h fn d bs oc ck = .error .zeroDivision := by
  simp [send_bulk_email, bulk_loop, print_summary]

theorem send_bulk_email_run (st : BroadcasterState) (rows : List Recipient)
    (k s b : List Char) (h : Option (List Char)) (fn : List Char)
    (d : ℚ) (bs : Nat) (oc : Nat → Payload → TransportOutcome) (ck : Nat → Nat)
    (hne : rows ≠ []) :
    send_bulk_email st rows k s b h fn d bs oc ck =
      .ok (⟨st.sent_count
              + countSucc ⟨k, s, b, h, fn, d, bs, rows.length, oc, ck⟩ 0 rows,
            st.failed_count
              + countFail ⟨k, s, b, h, fn, d, bs, rows.length, oc, ck⟩ 0 rows,
            expectedResults ⟨k, s, b, h, fn, d, bs, rows.length, oc, ck⟩ 0 rows⟩,
           (labelPausePositions rows.length bs 0 rows).map (fun p => (p, d))) := by
  simp only [send_bulk_email]
  have hres := bulk_loop_results ⟨k, s, b, h, fn, d, bs, rows.length, oc, ck⟩
    rows 0 ⟨st.sent_count, st.failed_count, []⟩
  have hsent := bulk_loop_sent ⟨k, s, b, h, fn, d, bs, rows.length, oc, ck⟩
    rows 0 ⟨st.sent_count, st.failed_count, []⟩
  have hfail := bulk_loop_failed ⟨k, s, b, h, fn, d, bs, rows.length, oc, ck⟩
    rows 0 ⟨st.sent_count, st.failed_count, []⟩
  have hp := bulk_loop_pauses ⟨k, s, b, h, fn, d, bs, rows.length, oc, ck⟩
    rows 0 ⟨st.sent_count, st.failed_count, []⟩
  have hlen : ((bulk_loop ⟨k, s, b, h, fn, d, bs, rows.length, oc, ck⟩ 0
      ⟨st.sent_count, st.failed_count, []⟩ rows).1).results.length ≠ 0 := by
    rw [hres]
    simp only [List.nil_append, expectedResults_length]
    intro hcon
    exact hne (List.eq_nil_of_length_eq_zero hcon)
  rw [print_summary, if_neg hlen]
  refine congrArg Except.ok ?_
  refine Prod.ext ?_ hp
  refine BroadcasterState.ext ?_ ?_ ?_
  · simpa using hsent
  · simpa using hfail
  · simpa using hres

theorem expectedResults_email_mem (cfg : BulkConfig) :
    ∀ (rows : List Recipient) (pos : Nat) (res : SendResult),
      res ∈ expectedResults cfg pos rows → ∃ r ∈ rows, res.email = r.email := by
  intro rows
  induction rows with
  | nil => intro pos res hres; simp [expectedResults] at hres
  | cons r rest ih =>
    intro pos res hres
    rcases List.mem_cons.mp hres with hres | hres
    · refine ⟨r, List.mem_cons_self r rest, ?_⟩
      subst hres
      exact (single_fields initState cfg.api_key r.email r.nama cfg.subject
        cfg.body cfg.html_body cfg.from_name none none (cfg.outcomes pos)
        (cfg.clock pos)).1
    · obtain ⟨r0, hr0, hmail⟩ := ih (pos + 1) res hres
      exact ⟨r0, List.mem_cons_of_mem r hr0, hmail⟩

/-- C1 (corrected): for the empty recipient list, `send_bulk_email` does not
return an (empty) results list at all - the unguarded success-rate division
in `_print_summary` raises `ZeroDivisionError` before the function returns. -/
theorem send_bulk_empty_list_raises_zero_division :
    send_bulk_email initState [] wName wTpl wTpl none wName 1 10 okOutcome zeroClock
      = .error .zeroDivision := rfl

/-- C1 (amended): for every NON-EMPTY recipient list of size N,
`send_bulk_email` returns exactly N send results, one per recipient, in the
same order as the input list (each result carrying the matching recipient's
e-mail and name); for the empty list the call raises instead of returning. -/
theorem send_bulk_results_one_per_recipient_in_order
    (st : BroadcasterState) (rows : List Recipient)
    (k s b : List Char) (h : Option (List Char)) (fn : List Char)
    (d : ℚ) (bs : Nat) (oc : Nat → Payload → TransportOutcome) (ck : Nat → Nat)
    (hne : rows ≠ []) :
    match send_bulk_email st rows k s b h fn d bs oc ck with
    | .ok run =>
        run.1.results.length = rows.length
          ∧ run.1.results.map (fun x => (x.email, x.name))
              = rows.map (fun r => (r.email, r.nama))
    | .error _ => False := by
  rw [send_bulk_email_run st rows k s b h fn d bs oc ck hne]
  exact ⟨expectedResults_length _ rows 0, expectedResults_map_pair _ rows 0⟩

/-- C1 witness: a concrete one-recipient broadcast returns exactly one
result, for that recipient. -/
theorem send_bulk_results_one_per_recipient_in_order_witness :
    match send_bulk_email initState oneRow [] [] [] none [] 1 10 okOutcome zeroClock with
    | .ok run =>
        run.1.results.length = oneRow.length
          ∧ run.1.results.map (fun x => (x.email, x.name))
              = oneRow.map (fun r => (r.email, r.nama))
    | .error _ => False :=
  send_bulk_results_one_per_recipient_in_order initState oneRow [] [] [] none []
    1 10 okOutcome zeroClock (by decide)

/-- C2: a status-200 response whose success flag is true yields a
`success` result carrying the provider message id; any other response
yields a `failed` result carrying the provider's error message (with the
`'Unknown error'` default); a transport-level `RequestException` or any
other exception yields a `failed` result with a descriptive message; and
the loop always appends one result per recipient regardless of outcomes,
so subsequent sends proceed. -/
theorem send_single_response_classification
    (st : BroadcasterState) (k e n s b : List Char) (h : Option (List Char))
    (fn : List Char) (cc bc : Option (List Char)) (code : Nat)
    (resp : ApiResponse) (m : List Char) (t : Nat) :
    (code = 200 ∧ resp.success = true →
      send_single_email st k e n s b h fn cc bc (fun _ => .response code resp) t
        = (⟨st.sent_count + 1, st.failed_count, st.results⟩,
           ⟨.success, e, n, msgSentOk, some resp.messageId, t⟩))
    ∧ (¬ (code = 200 ∧ resp.success = true) →
      send_single_email st k e n s b h fn cc bc (fun _ => .response code resp) t
        = (⟨st.sent_count, st.failed_count + 1, st.results⟩,
           ⟨.failed, e, n, resp.errorMessage.getD msgUnknownError, none, t⟩))
    ∧ send_single_email st k e n s b h fn cc bc (fun _ => .requestExn m) t
        = (⟨st.sent_count, st.failed_count + 1, st.results⟩,
           ⟨.failed, e, n, msgRequestErrorPrefix ++ m, none, t⟩)
    ∧ send_single_email st k e n s b h fn cc bc (fun _ => .otherExn m) t
        = (⟨st.sent_count, st.failed_count + 1, st.results⟩,
           ⟨.failed, e, n, msgUnexpectedErrorPrefix ++ m, none, t⟩)
    ∧ ∀ (cfg : BulkConfig) (rows : List Recipient) (pos : Nat)
        (st2 : BroadcasterState),
        ((bulk_loop cfg pos st2 rows).1).results.length
          = st2.results.length + rows.length := by
  refine ⟨?_, ?_, ?_, ?_, ?_⟩
  · intro hc
    simp [send_single_email, hc]
  · intro hc
    simp only [send_single_email]
    rw [if_neg hc]
  · simp [send_single_email]
  · simp [send_single_email]
  · intro cfg rows pos st2
    rw [bulk_loop_results]
    simp [expectedResults_length]

/-- C2 witness: a concrete non-200 response yields a failed result carrying
the provider's error message, with the failure counter bumped. -/
theorem send_single_response_classification_witness :
    send_single_email initState [] wEmailOk wName [] [] none [] none none
        (fun _ => .response 404 ⟨false, none, some wErrMsg⟩) 0
      = (⟨0, 1, []⟩, ⟨.failed, wEmailOk, wName, wErrMsg, none, 0⟩) :=
  (send_single_response_classification initState [] wEmailOk wName [] [] none []
    none none 404 ⟨false, none, some wErrMsg⟩ [] 0).2.1 (by decide)

/-- C3: `send_single_email` is a total function into result values: for
every transport outcome the returned result has status `success` or
`failed`, and in particular any `RequestException` (timeouts included)
becomes a `failed` result rather than a propagated fault. -/
theorem send_single_total_no_propagated_fault
    (st : BroadcasterState) (k e n s b : List Char) (h : Option (List Char))
    (fn : List Char) (cc bc : Option (List Char))
    (o : Payload → TransportOutcome) (t : Nat) :
    ((send_single_email st k e n s b h fn cc bc o t).2.status = .success
      ∨ (send_single_email st k e n s b h fn cc bc o t).2.status = .failed)
    ∧ ∀ m : List Char,
        (send_single_email st k e n s b h fn cc bc
            (fun _ => .requestExn m) t).2.status = .failed := by
  refine ⟨(single_fields st k e n s b h fn cc bc o t).2.2, ?_⟩
  intro m
  simp [send_single_email]

/-- C4 (counterexample): on a frame whose index labels are 0, 2, 3 - the
shape the loader itself produces after dropping a malformed row - a
broadcast with `batch_size = 2` pauses after NO recipient, while the claim's
positional rule demands a pause after the 2nd of the 3 recipients. -/
theorem send_bulk_pause_positional_claim_false :
    bulkPauses (send_bulk_email initState gappedRows wName wTpl wTpl none wName
        1 2 okOutcome zeroClock) = []
    ∧ specPausePositions gappedRows.length 2 = [2]
    ∧ bulkPauses (send_bulk_email initState gappedRows wName wTpl wTpl none wName
        1 2 okOutcome zeroClock) ≠ specPausePositions gappedRows.length 2 := by
  refine ⟨by decide, by decide, by decide⟩

/-- C4 (amended): `send_bulk_email` pauses for `delay_seconds` after the
recipient at 1-based position p exactly when that row's dataframe index
label l satisfies `(l + 1) % batch_size = 0` and `l + 1 < N`; on a frame
with the default index 0..N-1 this coincides with the positional rule, and
then for `batch_size = 10` and 25 recipients it pauses exactly twice, after
the 10th and 20th recipients and never after the last. -/
theorem send_bulk_pause_schedule_by_index_label
    (st : BroadcasterState) (rows : List Recipient)
    (k s b : List Char) (h : Option (List Char)) (fn : List Char)
    (d : ℚ) (bs : Nat) (oc : Nat → Payload → TransportOutcome) (ck : Nat → Nat) :
    (match send_bulk_email st rows k s b h fn d bs oc ck with
     | .ok run =>
         run.2 = (labelPausePositions rows.length bs 0 rows).map (fun p => (p, d))
     | .error _ => rows = [])
    ∧ bulkPauses (send_bulk_email initState (defaultRecipients 25 wName wEmailOk)
        wName wTpl wTpl none wName 1 10 okOutcome zeroClock) = [10, 20] := by
  constructor
  · by_cases hne : rows = []
    · subst hne
      rw [send_bulk_email_nil]
    · rw [send_bulk_email_run st rows k s b h fn d bs oc ck hne]
  · decide

/-- C5 (counterexample): on an empty results list the summary's success-rate
step does not report a placeholder - it raises `ZeroDivisionError`. -/
theorem print_summary_empty_results_raises :
    print_summary initState = .error .zeroDivision := rfl

/-- C5 (amended): whenever the accumulated results list is empty,
`_print_summary` raises `ZeroDivisionError` at the success-rate division;
there is no guard and no placeholder value. -/
theorem print_summary_empty_results_zero_division
    (st : BroadcasterState) (hempty : st.results = []) :
    print_summary st = .error .zeroDivision := by
  simp [print_summary, hempty]

/-- C5 witness: a state with stale counters and an empty results list. -/
theorem print_summary_empty_results_zero_division_witness :
    print_summary ⟨3, 4, []⟩ = .error .zeroDivision :=
  print_summary_empty_results_zero_division ⟨3, 4, []⟩ rfl

/-- C6 (counterexample): running the same one-recipient broadcast twice on
one instance ends with `sent_count = 2`, while a fresh instance ends with
`sent_count = 1` - the counters are not reset by `send_bulk_email`, so the
reported outcome depends on the prior invocation. -/
theorem send_bulk_counters_persist_across_invocations :
    bulkSent (send_bulk_email
        (bulkState (send_bulk_email initState oneRow wName wTpl wTpl none wName
          1 10 okOutcome zeroClock))
        oneRow wName wTpl wTpl none wName 1 10 okOutcome zeroClock) = 2
    ∧ bulkSent (send_bulk_email initState oneRow wName wTpl wTpl none wName
        1 10 okOutcome zeroClock) = 1 := by
  refine ⟨by decide, by decide⟩

/-- C6 (amended): at the start of each `send_bulk_email` invocation only the
results list is reset; the sent and failed counters are carried over, so the
final counters are the incoming counters plus this run's tallies, while the
returned results and pauses are as from a fresh instance. -/
theorem send_bulk_counters_accumulate_results_reset
    (st : BroadcasterState) (rows : List Recipient)
    (k s b : List Char) (h : Option (List Char)) (fn : List Char)
    (d : ℚ) (bs : Nat) (oc : Nat → Payload → TransportOutcome) (ck : Nat → Nat) :
    send_bulk_email st rows k s b h fn d bs oc ck
      = match send_bulk_email initState rows k s b h fn d bs oc ck with
        | .ok run =>
            .ok (⟨st.sent_count + run.1.sent_count,
                  st.failed_count + run.1.failed_count,
                  run.1.results⟩, run.2)
        | .error e => .error e := by
  by_cases hne : rows = []
  · subst hne
    rw [send_bulk_email_nil, send_bulk_email_nil]
  · rw [send_bulk_email_run st rows k s b h fn d bs oc ck hne,
      send_bulk_email_run initState rows k s b h fn d bs oc ck hne]
    simp [initState]

/-- C7: personalization is exactly token substitution - splitting any
template at the scanned occurrences of the token `nameTok`, the rendered
text is the segments rejoined with the recipient's name, rejoining the
segments with the token reconstructs the template unchanged (nothing else is
altered), no segment contains the token (every occurrence is replaced), and
a non-empty HTML body is personalized by the same substitution. -/
theorem personalization_replaces_every_token_occurrence (tpl to_name : List Char) :
    pyReplace nameTok to_name tpl = joinWith to_name (splitTok nameTok tpl)
    ∧ joinWith nameTok (splitTok nameTok tpl) = tpl
    ∧ (∀ seg ∈ splitTok nameTok tpl, ¬ nameTok <:+: seg)
    ∧ ∀ (c : Char) (rest0 : List Char),
        personalize_html to_name (some (c :: rest0))
          = some (pyReplace nameTok to_name (c :: rest0)) := by
  refine ⟨pyReplace_joinWith nameTok to_name tpl,
    joinWith_splitTok nameTok (by decide) tpl,
    splitTok_no_token nameTok (by decide) tpl, ?_⟩
  intro c rest0
  simp [personalize_html]

/-- C7 witness: the template `"Hi \x7bnama\x7d!"` with the recipient name
`"Alice"` renders to `"Hi Alice!"`, and its leading segment `"Hi "` is
token-free. -/
theorem personalization_replaces_every_token_occurrence_witness :
    pyReplace nameTok wName wTpl = wRendered ∧ ¬ nameTok <:+: wSeg :=
  ⟨(personalization_replaces_every_token_occurrence wTpl wName).1.trans (by decide),
   (personalization_replaces_every_token_occurrence wTpl wName).2.2.1 wSeg (by decide)⟩

/-- C8: every recipient kept by the loader passes the e-mail pattern and
stems from a frame row whose e-mail cell was present; the spec's example
`"not-an-email"` fails the pattern; and every send result of a broadcast
over the loaded list carries the e-mail of some loaded (hence validated)
recipient - dropped rows appear in neither place. -/
theorem loader_drops_invalid_emails_everywhere
    (path : List Char) (f : CsvFrame) (rs : List Recipient)
    (hload : load_recipients_from_csv path (.frame f) = .ok rs) :
    (∀ r ∈ rs, matchesEmailRe r.email = true
      ∧ ∃ row ∈ f.rows, row.email = some r.email)
    ∧ matchesEmailRe wEmailBad = false
    ∧ ∀ (st : BroadcasterState) (k s b : List Char) (h : Option (List Char))
        (fn : List Char) (d : ℚ) (bs : Nat)
        (oc : Nat → Payload → TransportOutcome) (ck : Nat → Nat),
        match send_bulk_email st rs k s b h fn d bs oc ck with
        | .ok run => ∀ res ∈ run.1.results,
            ∃ r ∈ rs, res.email = r.email ∧ matchesEmailRe res.email = true
        | .error _ => rs = [] := by
  have hval : ∀ r ∈ rs, matchesEmailRe r.email = true
      ∧ ∃ row ∈ f.rows, row.email = some r.email := by
    simp only [load_recipients_from_csv] at hload
    split at hload
    · simp only [Except.ok.injEq] at hload
      subst hload
      intro r hr
      obtain ⟨hmemFM, hmatch⟩ := List.mem_filter.mp hr
      refine ⟨hmatch, ?_⟩
      obtain ⟨row, hrow, hmap⟩ := List.mem_filterMap.mp hmemFM
      obtain ⟨e0, he0, hmk⟩ := Option.map_eq_some'.mp hmap
      refine ⟨row, hrow, ?_⟩
      rw [he0, ← hmk]
    · exact absurd hload (by simp)
  refine ⟨hval, by decide, ?_⟩
  intro st k s b h fn d bs oc ck
  by_cases hne : rs = []
  · subst hne
    rw [send_bulk_email_nil]
  · rw [send_bulk_email_run st rs k s b h fn d bs oc ck hne]
    intro res hres
    obtain ⟨r, hr, hmail⟩ := expectedResults_email_mem _ rs 0 res hres
    exact ⟨r, hr, hmail, by rw [hmail]; exact (hval r hr).1⟩

/-- C8 witness: loading a frame with a valid row, a `"not-an-email"` row and
a missing-cell row keeps exactly the valid recipient, whose address passes
the pattern. -/
theorem loader_drops_invalid_emails_everywhere_witness :
    load_recipients_from_csv [] (.frame wFrame) = .ok wLoaded
    ∧ matchesEmailRe (Recipient.mk 0 wName wEmailOk).email = true :=
  ⟨rfl, ((loader_drops_invalid_emails_everywhere [] wFrame wLoaded rfl).1
      (Recipient.mk 0 wName wEmailOk) (by decide)).1⟩

/-- C9: a missing input file makes the loader raise `FileNotFoundError`
(the spec's FileAccess kind), a missing required column makes it raise the
wrapped `"Kolom yang hilang"` exception (the spec's Validation kind), and in
both cases no recipient list is produced - the run aborts. -/
theorem loader_error_kinds (path : List Char) (f : CsvFrame)
    (hmiss : required_columns.filter (fun c => ! f.columns.contains c) ≠ []) :
    load_recipients_from_csv path .fileNotFound
        = .error (.fileNotFound (msgFileNotFoundPrefix ++ path))
    ∧ kindOf (.fileNotFound (msgFileNotFoundPrefix ++ path)) = .fileAccess
    ∧ load_recipients_from_csv path (.frame f)
        = .error (.generic (msgCsvErrorPrefix ++ msgMissingColumnsPrefix
            ++ (String.intercalate commaSep
                (required_columns.filter (fun c => ! f.columns.contains c))).data))
    ∧ kindOf (.generic (msgCsvErrorPrefix ++ msgMissingColumnsPrefix
        ++ (String.intercalate commaSep
            (required_columns.filter (fun c => ! f.columns.contains c))).data))
        = .validation
    ∧ (∀ rs : List Recipient, load_recipients_from_csv path .fileNotFound ≠ .ok rs)
    ∧ (∀ rs : List Recipient, load_recipients_from_csv path (.frame f) ≠ .ok rs) := by
  have hempty : (required_columns.filter (fun c => ! f.columns.contains c)).isEmpty
      = false := by
    cases hm : required_columns.filter (fun c => ! f.columns.contains c) with
    | nil => exact absurd hm hmiss
    | cons a l => rfl
  have hpre : (msgCsvErrorPrefix ++ msgMissingColumnsPrefix)
      <+: msgCsvErrorPrefix ++ msgMissingColumnsPrefix
        ++ (String.intercalate commaSep
            (required_columns.filter (fun c => ! f.columns.contains c))).data :=
    ⟨(String.intercalate commaSep
        (required_columns.filter (fun c => ! f.columns.contains c))).data,
     by simp⟩
  refine ⟨rfl, rfl, ?_, ?_, ?_, ?_⟩
  · simp only [load_recipients_from_csv]
    rw [hempty]
    rfl
  · simp only [kindOf]
    rw [if_pos (isPrefixOfIff.mpr hpre)]
  · intro rs
    simp [load_recipients_from_csv]
  · intro rs
    simp only [load_recipients_from_csv]
    rw [hempty]
    simp

/-- C9 witness: a frame providing only the `nama` column aborts the load
with the wrapped missing-column exception, classified as Validation. -/
theorem loader_error_kinds_witness :
    load_recipients_from_csv [] (.frame wBadFrame)
        = .error (.generic (msgCsvErrorPrefix ++ msgMissingColumnsPrefix
            ++ (String.intercalate commaSep
                (required_columns.filter (fun c => ! wBadFrame.columns.contains c))).data))
    ∧ kindOf (.generic (msgCsvErrorPrefix ++ msgMissingColumnsPrefix
        ++ (String.intercalate commaSep
            (required_columns.filter (fun c => ! wBadFrame.columns.contains c))).data))
        = .validation :=
  ⟨(loader_error_kinds [] wBadFrame (by decide)).2.2.1,
   (loader_error_kinds [] wBadFrame (by decide)).2.2.2.1⟩

/-- C10: an empty-string `html_body` behaves exactly like an absent one - no
personalized HTML body is produced, the payload carries no `html_body` key,
and the whole single-send call is unchanged; likewise empty-string `cc` and
`bcc` values are omitted from the payload. -/
theorem empty_html_cc_bcc_omitted_from_payload
    (st : BroadcasterState) (k e n s b fn : List Char)
    (h : Option (List Char)) (cc bc : Option (List Char))
    (o : Payload → TransportOutcome) (t : Nat) :
    personalize_html n (some []) = none
    ∧ send_single_email st k e n s b (some []) fn cc bc o t
        = send_single_email st k e n s b none fn cc bc o t
    ∧ (build_payload k e s b fn (personalize_html n (some [])) cc bc).html_body
        = none
    ∧ (build_payload k e s b fn none (some []) (some [])).cc = none
    ∧ (build_payload k e s b fn none (some []) (some [])).bcc = none
    ∧ send_single_email st k e n s b h fn (some []) (some []) o t
        = send_single_email st k e n s b h fn none none o t :=
  ⟨rfl, rfl, rfl, rfl, rfl, rfl⟩
